import Mathlib

/-!
# kepair: generate an RSA key pair, register the public half, store the private half

A shallow embedding of `main.go`.  The program's own functions
(`createPrivateKey`, `encodeToPEM`, `encodePublicKeyToBytes`, `importKey`,
`saveInKMS`, `deleteImportKeyPair`, `main`) are translated one to one.

The library functions they call are of two sorts.

* Formatting functions whose output is fixed by a published format
  (`pem.EncodeToMemory`, `base64.StdEncoding`, `ssh.MarshalAuthorizedKey`,
  `fmt.Sprint`, `fmt.Sprintln`, `aws.ToString`) are written out as executable
  definitions.
* Everything else is a field of `Env`: the random source behind
  `rsa.GenerateKey`, the checks of `(*rsa.PrivateKey).Validate` and the bytes
  written by `x509.MarshalPKCS1PrivateKey` (both differ between releases of the
  Go library, and the repository names none), `ssh.NewPublicKey`,
  `config.LoadDefaultConfig` and the three remote operations.  Every remote
  operation is called at most once in a run, so a function of the request
  describes any behaviour of the remote side within a run.

Go strings are byte strings; a Go string is represented by a Lean `String`
holding one character per byte.
-/

namespace Kepair

/-! ## Bytes -/

/-- A byte. -/
abbrev Byte := Fin 256

/-- A byte slice (`[]byte`). -/
abbrev Bytes := List Byte

/-- The conversion `byte(n)`: the low eight bits of `n`. -/
def toByte (n : Nat) : Byte := ⟨n % 256, Nat.mod_lt n (by decide)⟩

/-- The conversion `[]byte(s)` of a string holding one character per byte. -/
def stringBytes (s : String) : Bytes := s.data.map (fun c => toByte c.toNat)

/-- The conversion `string(b)`. -/
def bytesString (b : Bytes) : String := String.mk (b.map (fun x => Char.ofNat x.val))

/-! ## encoding/base64 -/

/-- The alphabet of `base64.StdEncoding`. -/
def encodeStd : String :=
  "ABCDEFGHIJKLMNOPQRSTUVWXYZabcdefghijklmnopqrstuvwxyz0123456789+/"

/-- The table lookup `enc.encode[v]` for a six-bit value. -/
def encodeChar (v : Nat) : Byte := (stringBytes encodeStd).getD v (toByte 0)

/-- The padding character `=`. -/
def padChar : Byte := toByte 61

/-- The output of `base64.StdEncoding.Encode`. -/
def base64Encode : Bytes → Bytes
  | a :: b :: c :: rest =>
    let val := a.val <<< 16 ||| b.val <<< 8 ||| c.val
    encodeChar (val >>> 18 &&& 0x3f) :: encodeChar (val >>> 12 &&& 0x3f) ::
      encodeChar (val >>> 6 &&& 0x3f) :: encodeChar (val &&& 0x3f) :: base64Encode rest
  | [a, b] =>
    let val := a.val <<< 16 ||| b.val <<< 8
    [encodeChar (val >>> 18 &&& 0x3f), encodeChar (val >>> 12 &&& 0x3f),
      encodeChar (val >>> 6 &&& 0x3f), padChar]
  | [a] =>
    let val := a.val <<< 16
    [encodeChar (val >>> 18 &&& 0x3f), encodeChar (val >>> 12 &&& 0x3f), padChar, padChar]
  | [] => []

/-! ## encoding/pem -/

/-- A PEM block (`pem.Block`); `BlockType` is the Go field `Type`.  `Headers`
lists the entries of the Go map in key order; `nil` is `[]`. -/
structure Block where
  BlockType : String
  Headers : List (String × String)
  Bytes : Bytes

/-- The constant `pemLineLength`. -/
def pemLineLength : Nat := 64

/-- The line feed. -/
def nl : Byte := toByte 10

/-- The output of the `lineBreaker` writer once closed: the text cut into
lines of `pemLineLength` bytes, each followed by a line feed. -/
def lineBreaker : Nat → Bytes → Bytes
  | 0, _ => []
  | fuel + 1, text =>
    if text = [] then []
    else text.take pemLineLength ++ nl :: lineBreaker fuel (text.drop pemLineLength)

/-- One header line (`writeHeader`). -/
def writeHeader (k v : String) : Bytes := stringBytes (k ++ ": " ++ v ++ "\n")

/-- The header part written by `pem.Encode`: `Proc-Type` first, the other
headers in key order, then an empty line; nothing when there are no headers. -/
def pemHeaders (headers : List (String × String)) : Bytes :=
  if headers = [] then []
  else
    ((headers.filter (fun h => h.1 = "Proc-Type")).take 1).flatMap (fun h => writeHeader h.1 h.2) ++
    (headers.filter (fun h => h.1 ≠ "Proc-Type")).flatMap (fun h => writeHeader h.1 h.2) ++ [nl]

/-- The result of `pem.EncodeToMemory`; the empty slice (Go: `nil`) when a
header key contains a colon. -/
def pemEncodeToMemory (b : Block) : Bytes :=
  if b.Headers.any (fun h => h.1.data.contains ':') then []
  else
    let text := base64Encode b.Bytes
    stringBytes ("-----BEGIN " ++ b.BlockType ++ "-----\n") ++ pemHeaders b.Headers ++
      lineBreaker text.length text ++ stringBytes ("-----END " ++ b.BlockType ++ "-----\n")

/-! ## crypto/rsa -/

/-- A Go `error`, seen through its `Error()` text. -/
structure GoError where
  Error : String
  deriving DecidableEq

/-- An RSA public key (`rsa.PublicKey`): the modulus, a `*big.Int`, and the
public exponent, a Go `int`. -/
structure PublicKey where
  N : Int
  E : Int
  deriving DecidableEq

/-- An RSA private key (`rsa.PrivateKey`).  The embedded public key is the
field `PublicKey`.  The field `Precomputed` is left out: the program never
reads it, and the library functions that do are fields of `Env`. -/
structure PrivateKey where
  PublicKey : PublicKey
  D : Int
  Primes : List Int
  deriving DecidableEq

/-! ## golang.org/x/crypto/ssh -/

/-- An `ssh.PublicKey`, seen through its methods `Type()` and `Marshal()`. -/
structure SshPublicKey where
  KeyType : String
  Marshal : Bytes

/-- The result of `ssh.MarshalAuthorizedKey`: one `authorized_keys` line. -/
def MarshalAuthorizedKey (key : SshPublicKey) : Bytes :=
  stringBytes key.KeyType ++ toByte 32 :: (base64Encode key.Marshal ++ [nl])

/-! ## fmt and log -/

/-- An operand of `fmt.Sprint` or `fmt.Sprintln`: a string or an `error`. -/
inductive Operand
  | str (s : String)
  | err (e : GoError)

/-- The text `%v` prints for an operand. -/
def Operand.text : Operand → String
  | .str s => s
  | .err e => e.Error

/-- Whether the operand is of kind string. -/
def Operand.isString : Operand → Bool
  | .str _ => true
  | .err _ => false

/-- The loop of `doPrint`: a space goes between two operands when neither is a string. -/
def doPrint : Bool → Bool → List Operand → String
  | _, _, [] => ""
  | first, prevString, arg :: rest =>
    (if !first && !arg.isString && !prevString then " " else "") ++ arg.text ++
      doPrint false arg.isString rest

/-- The result of `fmt.Sprint`. -/
def Sprint (a : List Operand) : String := doPrint true false a

/-- The result of `fmt.Sprintln`: a space between operands, a line feed at the end. -/
def Sprintln (a : List Operand) : String := " ".intercalate (a.map Operand.text) ++ "\n"

/-! ## aws -/

/-- The result of `aws.ToString`: the string pointed to, or `""` for `nil`. -/
def ToString (p : Option String) : String :=
  match p with
  | none => ""
  | some s => s

/-- The part of `aws.Config` the program touches: it only hands it on. -/
structure Config where
  Region : String
  deriving DecidableEq

/-- The fields of `ec2.ImportKeyPairInput` the program sets. -/
structure ImportKeyPairInput where
  KeyName : Option String
  PublicKeyMaterial : Bytes
  DryRun : Option Bool
  deriving DecidableEq

/-- The field of `ec2.ImportKeyPairOutput` the program reads. -/
structure ImportKeyPairOutput where
  KeyPairId : Option String
  deriving DecidableEq

/-- The fields of `secretsmanager.CreateSecretInput` the program sets. -/
structure CreateSecretInput where
  Name : Option String
  Description : Option String
  SecretString : Option String
  deriving DecidableEq

/-- The field of `secretsmanager.CreateSecretOutput` the program reads. -/
structure CreateSecretOutput where
  ARN : Option String
  deriving DecidableEq

/-- The fields of `ec2.DeleteKeyPairInput` the program sets. -/
structure DeleteKeyPairInput where
  DryRun : Option Bool
  KeyPairId : Option String
  deriving DecidableEq

/-! ## The outside world and the observations of a run -/

/-- The collaborators of the program.  `GenerateKey` is `rsa.GenerateKey` on
`rand.Reader`; `Validate` is `(*rsa.PrivateKey).Validate`, with `none` for
`nil`; `MarshalPKCS1PrivateKey` is the function of `crypto/x509`, with `none`
for a run-time panic (it indexes the first two primes of the key); the three
remote operations are the methods of the EC2 and Secrets Manager clients built
from a configuration. -/
structure Env where
  GenerateKey : Int → Except GoError PrivateKey
  Validate : PrivateKey → Option GoError
  MarshalPKCS1PrivateKey : PrivateKey → Option Bytes
  NewPublicKey : PublicKey → Except GoError SshPublicKey
  LoadDefaultConfig : Except GoError Config
  ImportKeyPair : Config → ImportKeyPairInput → Except GoError ImportKeyPairOutput
  CreateSecret : Config → CreateSecretInput → Except GoError CreateSecretOutput
  DeleteKeyPair : Config → DeleteKeyPairInput → Except GoError Unit

/-- The values of the command line flags after `flag.Parse()`. -/
structure Flags where
  fBitSize : Int
  fName : String
  fDryrun : Bool

/-- What a run does that can be seen from outside, in order: a remote call
with its request and its result, a write to standard output, a message handed
to the standard logger (which writes it to standard error behind a time stamp). -/
inductive Event
  | ImportKeyPair (input : ImportKeyPairInput) (result : Except GoError ImportKeyPairOutput)
  | CreateSecret (input : CreateSecretInput) (result : Except GoError CreateSecretOutput)
  | DeleteKeyPair (input : DeleteKeyPairInput) (result : Except GoError Unit)
  | stdout (text : String)
  | log (text : String)

/-- How a run ends: `main` returns (exit status 0), `log.Fatal` ends the
process with exit status 1 after logging `msg`, or a run-time panic. -/
inductive Outcome
  | returned
  | fatal (msg : String)
  | panicked
  deriving DecidableEq

/-- A run: its events in order and its end. -/
structure Run where
  trace : List Event
  outcome : Outcome

/-- The call `log.Fatal(v...)`: the message `fmt.Sprint(v...)` is logged and the process exits. -/
def logFatal (trace : List Event) (v : List Operand) : Run :=
  ⟨trace ++ [Event.log (Sprint v)], Outcome.fatal (Sprint v)⟩

/-- The call `log.Println(v...)`. -/
def logPrintln (trace : List Event) (v : List Operand) : List Event :=
  trace ++ [Event.log (Sprintln v)]

/-- The call `fmt.Println(v...)`. -/
def fmtPrintln (trace : List Event) (v : List Operand) : List Event :=
  trace ++ [Event.stdout (Sprintln v)]

/-! ## The program -/

/-- The function `createPrivateKey`. -/
def createPrivateKey (env : Env) (bitsize : Int) : Except GoError PrivateKey :=
  match env.GenerateKey bitsize with
  | .error err => .error err
  | .ok privateKey =>
    match env.Validate privateKey with
    | some err => .error err
    | none => .ok privateKey

/-- The function `encodeToPEM`; `none` is a run-time panic inside
`x509.MarshalPKCS1PrivateKey`. -/
def encodeToPEM (env : Env) (privateKey : PrivateKey) : Option Bytes :=
  match env.MarshalPKCS1PrivateKey privateKey with
  | none => none
  | some priv =>
    let block : Block := { BlockType := "RSA PRIVATE KEY", Headers := [], Bytes := priv }
    let privPEM := pemEncodeToMemory block
    some privPEM

/-- The function `encodePublicKeyToBytes`. -/
def encodePublicKeyToBytes (env : Env) (privateKey : PublicKey) : Except GoError Bytes :=
  match env.NewPublicKey privateKey with
  | .error err => .error err
  | .ok publicRSAKey =>
    let pubKeyBytes := MarshalAuthorizedKey publicRSAKey
    .ok pubKeyBytes

/-- The function `importKey`; the remote call is appended to the trace. -/
def importKey (env : Env) (cfg : Config) (name : String) (key : Bytes) (dryrun : Bool)
    (trace : List Event) : Except GoError String × List Event :=
  let input : ImportKeyPairInput :=
    { KeyName := some name, PublicKeyMaterial := key, DryRun := some dryrun }
  let result := env.ImportKeyPair cfg input
  let trace := trace ++ [Event.ImportKeyPair input result]
  match result with
  | .error err => (.error err, trace)
  | .ok output => (.ok (ToString output.KeyPairId), trace)

/-- The function `saveInKMS`; the remote call is appended to the trace. -/
def saveInKMS (env : Env) (cfg : Config) (name : String) (key : Bytes)
    (trace : List Event) : Except GoError String × List Event :=
  let input : CreateSecretInput :=
    { Name := some name, Description := some "SSH KEY", SecretString := some (bytesString key) }
  let result := env.CreateSecret cfg input
  let trace := trace ++ [Event.CreateSecret input result]
  match result with
  | .error err => (.error err, trace)
  | .ok output => (.ok (ToString output.ARN), trace)

/-- The function `deleteImportKeyPair`; the remote call is appended to the trace. -/
def deleteImportKeyPair (env : Env) (cfg : Config) (keypairId : String) (dryrun : Bool)
    (trace : List Event) : Option GoError × List Event :=
  let input : DeleteKeyPairInput := { DryRun := some dryrun, KeyPairId := some keypairId }
  let result := env.DeleteKeyPair cfg input
  let trace := trace ++ [Event.DeleteKeyPair input result]
  match result with
  | .error err => (some err, trace)
  | .ok _ => (none, trace)

/-- The function `main`, after `flag.Parse()`.  The comment `// write to temp`
between the two encodings and the loading of the configuration has no code
behind it: the encoded keys stay in memory until they are sent. -/
def main (env : Env) (flags : Flags) : Run :=
  match createPrivateKey env flags.fBitSize with
  | .error _ => logFatal [] [.str "private key creationg failed, exiting"]
  | .ok privKey =>
    match encodeToPEM env privKey with
    | none => ⟨[], Outcome.panicked⟩
    | some privKeyBytes =>
      match encodePublicKeyToBytes env privKey.PublicKey with
      | .error _ => logFatal [] [.str "public key creation failed, exiting"]
      | .ok pubKey =>
        match env.LoadDefaultConfig with
        | .error err => logFatal [] [.err err]
        | .ok cfg =>
          match importKey env cfg flags.fName pubKey flags.fDryrun [] with
          | (.error err, trace) => logFatal trace [.str "import keypair failed", .err err]
          | (.ok keypairID, trace) =>
            let trace := fmtPrintln trace [.str "Saved in EC2", .str keypairID]
            match saveInKMS env cfg flags.fName privKeyBytes trace with
            | (.error err, trace) =>
              let trace := logPrintln trace [.str "delete keypair as we have errors"]
              let trace :=
                match deleteImportKeyPair env cfg keypairID flags.fDryrun trace with
                | (some err, trace) => logPrintln trace [.str "failed deletion of keypair", .err err]
                | (none, trace) => trace
              logFatal trace [.str "secretsmanager keypair save failed", .err err]
            | (.ok smKeyPairArn, trace) =>
              let trace := fmtPrintln trace [.str "Saved in Secretsmanager", .str smKeyPairArn]
              ⟨trace, Outcome.returned⟩

/-! ## Reading a trace -/

/-- The register calls (`ImportKeyPair`) of a trace, with their results. -/
def registerCalls : List Event → List (ImportKeyPairInput × Except GoError ImportKeyPairOutput)
  | [] => []
  | Event.ImportKeyPair input result :: rest => (input, result) :: registerCalls rest
  | _ :: rest => registerCalls rest

/-- The store calls (`CreateSecret`) of a trace, with their results. -/
def storeCalls : List Event → List (CreateSecretInput × Except GoError CreateSecretOutput)
  | [] => []
  | Event.CreateSecret input result :: rest => (input, result) :: storeCalls rest
  | _ :: rest => storeCalls rest

/-- The deregister calls (`DeleteKeyPair`) of a trace, with their results. -/
def deregisterCalls : List Event → List (DeleteKeyPairInput × Except GoError Unit)
  | [] => []
  | Event.DeleteKeyPair input result :: rest => (input, result) :: deregisterCalls rest
  | _ :: rest => deregisterCalls rest

/-- The messages handed to the logger, in order. -/
def logged : List Event → List String
  | [] => []
  | Event.log text :: rest => text :: logged rest
  | _ :: rest => logged rest

/-- The texts written to standard output, in order. -/
def printed : List Event → List String
  | [] => []
  | Event.stdout text :: rest => text :: printed rest
  | _ :: rest => printed rest

/-- The exit status of the process. -/
def Outcome.exitStatus : Outcome → Nat
  | .returned => 0
  | .fatal _ => 1
  | .panicked => 2

/-- Whether `needle` occurs in `text`. -/
def occursIn (needle text : String) : Prop := needle.data <:+: text.data

instance (needle text : String) : Decidable (occursIn needle text) := by
  unfold occursIn; infer_instance

/-! ## The paths of `main` -/

/-- The request `importKey` sends. -/
def registerRequest (flags : Flags) (pubKey : Bytes) : ImportKeyPairInput :=
  { KeyName := some flags.fName, PublicKeyMaterial := pubKey, DryRun := some flags.fDryrun }

/-- The request `saveInKMS` sends. -/
def storeRequest (flags : Flags) (privKeyBytes : Bytes) : CreateSecretInput :=
  { Name := some flags.fName, Description := some "SSH KEY",
    SecretString := some (bytesString privKeyBytes) }

/-- The request `deleteImportKeyPair` sends. -/
def deregisterRequest (flags : Flags) (keypairID : String) : DeleteKeyPairInput :=
  { DryRun := some flags.fDryrun, KeyPairId := some keypairID }

/-- The local steps before the first remote call all succeed: generation and
validation give `privKey`, its PEM encoding is `privKeyBytes`, its public half
encodes to `pubKey`, and the configuration `cfg` is loaded. -/
structure Prepared (env : Env) (flags : Flags) (privKey : PrivateKey) (privKeyBytes pubKey : Bytes)
    (cfg : Config) : Prop where
  generated : createPrivateKey env flags.fBitSize = .ok privKey
  encoded : encodeToPEM env privKey = some privKeyBytes
  publicEncoded : encodePublicKeyToBytes env privKey.PublicKey = .ok pubKey
  configured : env.LoadDefaultConfig = .ok cfg

/-- The eight paths through `main`, each with the run it produces. -/
inductive RunShape (env : Env) (flags : Flags) : Run → Prop
  | generationFailed (err : GoError)
      (hgen : createPrivateKey env flags.fBitSize = .error err) :
      RunShape env flags (logFatal [] [.str "private key creationg failed, exiting"])
  | marshalPanicked (privKey : PrivateKey)
      (hgen : createPrivateKey env flags.fBitSize = .ok privKey)
      (hpem : encodeToPEM env privKey = none) :
      RunShape env flags ⟨[], Outcome.panicked⟩
  | encodingFailed (privKey : PrivateKey) (privKeyBytes : Bytes) (err : GoError)
      (hgen : createPrivateKey env flags.fBitSize = .ok privKey)
      (hpem : encodeToPEM env privKey = some privKeyBytes)
      (hpub : encodePublicKeyToBytes env privKey.PublicKey = .error err) :
      RunShape env flags (logFatal [] [.str "public key creation failed, exiting"])
  | configFailed (privKey : PrivateKey) (privKeyBytes pubKey : Bytes) (err : GoError)
      (hgen : createPrivateKey env flags.fBitSize = .ok privKey)
      (hpem : encodeToPEM env privKey = some privKeyBytes)
      (hpub : encodePublicKeyToBytes env privKey.PublicKey = .ok pubKey)
      (hcfg : env.LoadDefaultConfig = .error err) :
      RunShape env flags (logFatal [] [.err err])
  | registrationFailed (privKey : PrivateKey) (privKeyBytes pubKey : Bytes) (cfg : Config)
      (err : GoError) (hprep : Prepared env flags privKey privKeyBytes pubKey cfg)
      (hreg : env.ImportKeyPair cfg (registerRequest flags pubKey) = .error err) :
      RunShape env flags
        (logFatal [Event.ImportKeyPair (registerRequest flags pubKey) (.error err)]
          [.str "import keypair failed", .err err])
  | stored (privKey : PrivateKey) (privKeyBytes pubKey : Bytes) (cfg : Config)
      (output : ImportKeyPairOutput) (secret : CreateSecretOutput)
      (hprep : Prepared env flags privKey privKeyBytes pubKey cfg)
      (hreg : env.ImportKeyPair cfg (registerRequest flags pubKey) = .ok output)
      (hsto : env.CreateSecret cfg (storeRequest flags privKeyBytes) = .ok secret) :
      RunShape env flags
        ⟨[Event.ImportKeyPair (registerRequest flags pubKey) (.ok output),
          Event.stdout (Sprintln [.str "Saved in EC2", .str (ToString output.KeyPairId)]),
          Event.CreateSecret (storeRequest flags privKeyBytes) (.ok secret),
          Event.stdout (Sprintln [.str "Saved in Secretsmanager", .str (ToString secret.ARN)])],
         Outcome.returned⟩
  | rolledBack (privKey : PrivateKey) (privKeyBytes pubKey : Bytes) (cfg : Config)
      (output : ImportKeyPairOutput) (err : GoError)
      (hprep : Prepared env flags privKey privKeyBytes pubKey cfg)
      (hreg : env.ImportKeyPair cfg (registerRequest flags pubKey) = .ok output)
      (hsto : env.CreateSecret cfg (storeRequest flags privKeyBytes) = .error err)
      (hdel : env.DeleteKeyPair cfg (deregisterRequest flags (ToString output.KeyPairId)) = .ok ()) :
      RunShape env flags
        (logFatal
          [Event.ImportKeyPair (registerRequest flags pubKey) (.ok output),
           Event.stdout (Sprintln [.str "Saved in EC2", .str (ToString output.KeyPairId)]),
           Event.CreateSecret (storeRequest flags privKeyBytes) (.error err),
           Event.log (Sprintln [.str "delete keypair as we have errors"]),
           Event.DeleteKeyPair (deregisterRequest flags (ToString output.KeyPairId)) (.ok ())]
          [.str "secretsmanager keypair save failed", .err err])
  | orphaned (privKey : PrivateKey) (privKeyBytes pubKey : Bytes) (cfg : Config)
      (output : ImportKeyPairOutput) (err derr : GoError)
      (hprep : Prepared env flags privKey privKeyBytes pubKey cfg)
      (hreg : env.ImportKeyPair cfg (registerRequest flags pubKey) = .ok output)
      (hsto : env.CreateSecret cfg (storeRequest flags privKeyBytes) = .error err)
      (hdel : env.DeleteKeyPair cfg (deregisterRequest flags (ToString output.KeyPairId)) =
        .error derr) :
      RunShape env flags
        (logFatal
          [Event.ImportKeyPair (registerRequest flags pubKey) (.ok output),
           Event.stdout (Sprintln [.str "Saved in EC2", .str (ToString output.KeyPairId)]),
           Event.CreateSecret (storeRequest flags privKeyBytes) (.error err),
           Event.log (Sprintln [.str "delete keypair as we have errors"]),
           Event.DeleteKeyPair (deregisterRequest flags (ToString output.KeyPairId)) (.error derr),
           Event.log (Sprintln [.str "failed deletion of keypair", .err derr])]
          [.str "secretsmanager keypair save failed", .err err])

/-! ## Sample collaborators -/

/-- A 1024-bit key with two primes and `E = 65537`. -/
def sampleKey : PrivateKey :=
  ⟨⟨141501318316692287546303310637783258260681863996240069272382994696748171949085113190825278851645018281399672856327488794349512086810462973067184082192803716662591843454358981433850186630709802077883110232832326838518140845015407735508552885455419146966154874932629848186201970682584546330650543237361894752651,
    65537⟩,
    125577912872659060199095063144708330667527939541775102751428044273498438697265489012386588775338778907834776884351120790651941986863453429963738965599552136665859700931625336507379075651746373644271527703735434620882317297644582947819134575729225343996557565682944086471118153512312998256472335585109435042385,
    [12851275497657812798390105089486301101624394340851061866977665354669993349000521112428888978765711689823988238958162141040097050551007586937505925647138813,
     11010682818408287015912558025156022776834551609189209867399301181540798114705359459598109608749441556396115411374273954840238976845178047487694894914021927]⟩

/-- The PKCS #1 DER encoding of `sampleKey`: the bytes
`x509.MarshalPKCS1PrivateKey` writes for it. -/
def sampleDER : Bytes :=
  [
    48, 130, 2, 93, 2, 1, 0, 2, 129, 129, 0, 201, 129, 43, 60, 75, 30, 32, 126, 141, 135, 213,
    105, 156, 167, 100, 37, 37, 40, 61, 25, 152, 127, 97, 196, 229, 203, 73, 203, 231, 7, 55,
    130, 177, 187, 130, 227, 172, 223, 167, 67, 172, 214, 18, 254, 109, 217, 231, 142, 189, 95,
    245, 47, 44, 76, 166, 198, 196, 20, 185, 159, 115, 111, 226, 50, 131, 66, 233, 168, 94, 118,
    55, 192, 32, 188, 66, 237, 249, 61, 100, 111, 160, 92, 129, 79, 163, 66, 204, 52, 167, 144,
    214, 177, 18, 190, 175, 86, 62, 195, 183, 63, 96, 111, 59, 167, 151, 124, 184, 120, 148,
    158, 38, 21, 105, 10, 239, 164, 124, 196, 149, 80, 89, 249, 92, 253, 192, 157, 1, 139, 2, 3,
    1, 0, 1, 2, 129, 129, 0, 178, 212, 49, 188, 182, 165, 172, 12, 228, 42, 50, 154, 33, 238,
    228, 143, 154, 164, 85, 101, 75, 211, 112, 191, 63, 120, 228, 171, 83, 3, 50, 158, 136, 129,
    115, 45, 255, 148, 21, 107, 152, 13, 252, 153, 84, 128, 88, 98, 115, 106, 159, 188, 23, 194,
    135, 24, 75, 152, 97, 12, 67, 116, 125, 246, 229, 243, 205, 82, 111, 18, 203, 105, 138, 79,
    125, 162, 134, 250, 178, 43, 22, 231, 207, 164, 121, 38, 60, 230, 154, 154, 130, 27, 226,
    40, 159, 132, 239, 92, 77, 29, 53, 112, 244, 225, 107, 153, 134, 107, 220, 178, 194, 206,
    35, 58, 123, 54, 133, 34, 148, 185, 21, 1, 90, 242, 174, 41, 74, 81, 2, 65, 0, 245, 95, 185,
    228, 16, 114, 7, 18, 166, 207, 129, 217, 209, 130, 40, 243, 155, 150, 42, 190, 67, 93, 15,
    105, 232, 225, 171, 46, 145, 249, 52, 212, 241, 70, 10, 227, 152, 158, 33, 10, 16, 125, 195,
    205, 156, 27, 156, 82, 175, 74, 134, 70, 215, 50, 9, 207, 13, 144, 119, 207, 113, 77, 127,
    253, 2, 65, 0, 210, 59, 24, 181, 242, 0, 132, 100, 134, 236, 28, 161, 60, 247, 182, 116, 88,
    181, 23, 54, 32, 198, 219, 56, 97, 44, 133, 130, 137, 123, 240, 144, 101, 94, 53, 146, 176,
    242, 38, 37, 70, 184, 151, 224, 206, 17, 98, 246, 61, 151, 101, 127, 51, 199, 176, 115, 230,
    201, 55, 197, 61, 187, 42, 39, 2, 65, 0, 165, 161, 30, 75, 178, 70, 38, 60, 18, 217, 147,
    95, 66, 170, 199, 149, 216, 250, 62, 147, 251, 200, 191, 116, 208, 60, 52, 94, 213, 46, 16,
    217, 132, 155, 177, 17, 252, 157, 16, 212, 72, 89, 124, 104, 55, 237, 243, 81, 100, 253,
    187, 49, 234, 100, 222, 118, 35, 67, 215, 123, 241, 145, 76, 201, 2, 64, 25, 10, 76, 241,
    46, 247, 252, 204, 244, 125, 31, 19, 221, 109, 43, 224, 67, 200, 158, 17, 38, 106, 73, 38,
    55, 252, 211, 146, 46, 202, 2, 103, 80, 139, 158, 25, 240, 213, 134, 209, 157, 208, 210,
    214, 69, 245, 48, 50, 96, 55, 174, 49, 46, 123, 180, 122, 185, 156, 113, 246, 30, 90, 50,
    181, 2, 64, 9, 102, 6, 141, 122, 100, 244, 76, 158, 144, 235, 88, 111, 192, 87, 117, 150,
    130, 23, 196, 165, 204, 141, 37, 37, 110, 135, 151, 20, 242, 86, 82, 51, 145, 5, 196, 127,
    37, 168, 103, 196, 84, 2, 162, 14, 245, 28, 7, 103, 159, 34, 162, 240, 79, 183, 75, 180, 8,
    171, 118, 181, 54, 223, 134]

/-- The SSH form of the public half of `sampleKey`: type `ssh-rsa` and the
wire encoding of the type name, `E` and `N`. -/
def sampleSshKey : SshPublicKey :=
  ⟨"ssh-rsa", [
    0, 0, 0, 7, 115, 115, 104, 45, 114, 115, 97, 0, 0, 0, 3, 1, 0, 1, 0, 0, 0, 129, 0, 201, 129,
    43, 60, 75, 30, 32, 126, 141, 135, 213, 105, 156, 167, 100, 37, 37, 40, 61, 25, 152, 127,
    97, 196, 229, 203, 73, 203, 231, 7, 55, 130, 177, 187, 130, 227, 172, 223, 167, 67, 172,
    214, 18, 254, 109, 217, 231, 142, 189, 95, 245, 47, 44, 76, 166, 198, 196, 20, 185, 159,
    115, 111, 226, 50, 131, 66, 233, 168, 94, 118, 55, 192, 32, 188, 66, 237, 249, 61, 100, 111,
    160, 92, 129, 79, 163, 66, 204, 52, 167, 144, 214, 177, 18, 190, 175, 86, 62, 195, 183, 63,
    96, 111, 59, 167, 151, 124, 184, 120, 148, 158, 38, 21, 105, 10, 239, 164, 124, 196, 149,
    80, 89, 249, 92, 253, 192, 157, 1, 139]⟩

/-- Collaborators with fixed answers: generation gives `sampleKey`, which
validates and is encoded as `sampleDER`, the configuration loads, and the
three remote operations answer as scripted. -/
def scriptedEnv (register : Except GoError ImportKeyPairOutput)
    (store : Except GoError CreateSecretOutput) (deregister : Except GoError Unit) : Env :=
  { GenerateKey := fun _ => .ok sampleKey
    Validate := fun _ => none
    MarshalPKCS1PrivateKey := fun _ => some sampleDER
    NewPublicKey := fun _ => .ok sampleSshKey
    LoadDefaultConfig := .ok ⟨"eu-north-1"⟩
    ImportKeyPair := fun _ _ => register
    CreateSecret := fun _ _ => store
    DeleteKeyPair := fun _ _ => deregister }

/-- Collaborators whose key generation fails. -/
def noEntropyEnv : Env :=
  { scriptedEnv (.ok ⟨some "key-0f3a"⟩) (.ok ⟨some "arn:aws:secretsmanager:svc-a"⟩) (.ok ()) with
    GenerateKey := fun _ => .error ⟨"entropy source unavailable"⟩ }

/-- Flags of a run for the name `svc-a` and a key of 1024 bits. -/
def sampleFlags (dryrun : Bool) : Flags := ⟨1024, "svc-a", dryrun⟩

/-! # Theorems -/

/-- Every run of `main` follows one of the eight paths. -/
theorem main_shape (env : Env) (flags : Flags) : RunShape env flags (main env flags) := by
  cases hgen : createPrivateKey env flags.fBitSize with
  | error err =>
    have := RunShape.generationFailed err hgen
    simpa only [main, hgen] using this
  | ok privKey =>
    cases hpem : encodeToPEM env privKey with
    | none =>
      have := RunShape.marshalPanicked privKey hgen hpem
      simpa only [main, hgen, hpem] using this
    | some privKeyBytes =>
      cases hpub : encodePublicKeyToBytes env privKey.PublicKey with
      | error err =>
        have := RunShape.encodingFailed privKey privKeyBytes err hgen hpem hpub
        simpa only [main, hgen, hpem, hpub] using this
      | ok pubKey =>
        cases hcfg : env.LoadDefaultConfig with
        | error err =>
          have := RunShape.configFailed privKey privKeyBytes pubKey err hgen hpem hpub hcfg
          simpa only [main, hgen, hpem, hpub, hcfg] using this
        | ok cfg =>
          have hprep : Prepared env flags privKey privKeyBytes pubKey cfg := ⟨hgen, hpem, hpub, hcfg⟩
          cases hreg : env.ImportKeyPair cfg (registerRequest flags pubKey) with
          | error err =>
            have := RunShape.registrationFailed privKey privKeyBytes pubKey cfg err hprep hreg
            simp only [registerRequest] at hreg this
            simpa only [main, hgen, hpem, hpub, hcfg, importKey, hreg, List.nil_append] using this
          | ok output =>
            cases hsto : env.CreateSecret cfg (storeRequest flags privKeyBytes) with
            | ok secret =>
              have := RunShape.stored privKey privKeyBytes pubKey cfg output secret hprep hreg hsto
              simp only [registerRequest, storeRequest] at hreg hsto this
              simpa only [main, hgen, hpem, hpub, hcfg, importKey, saveInKMS, hreg, hsto,
                fmtPrintln, List.nil_append, List.cons_append] using this
            | error err =>
              cases hdel : env.DeleteKeyPair cfg
                  (deregisterRequest flags (ToString output.KeyPairId)) with
              | ok u =>
                have := RunShape.rolledBack privKey privKeyBytes pubKey cfg output err hprep hreg
                  hsto hdel
                simp only [registerRequest, storeRequest, deregisterRequest] at hreg hsto hdel this
                simpa only [main, hgen, hpem, hpub, hcfg, importKey, saveInKMS,
                  deleteImportKeyPair, hreg, hsto, hdel, fmtPrintln, logPrintln,
                  List.nil_append, List.cons_append] using this
              | error derr =>
                have := RunShape.orphaned privKey privKeyBytes pubKey cfg output err derr hprep
                  hreg hsto hdel
                simp only [registerRequest, storeRequest, deregisterRequest] at hreg hsto hdel this
                simpa only [main, hgen, hpem, hpub, hcfg, importKey, saveInKMS,
                  deleteImportKeyPair, hreg, hsto, hdel, fmtPrintln, logPrintln,
                  List.nil_append, List.cons_append] using this

/-- A key returned by `createPrivateKey` is the generated key, and it validates. -/
theorem createPrivateKey_generated (env : Env) (bitsize : Int) (key : PrivateKey) :
    createPrivateKey env bitsize = Except.ok key ↔
      env.GenerateKey bitsize = Except.ok key ∧ env.Validate key = none := by
  cases hgen : env.GenerateKey bitsize with
  | error err => simp [createPrivateKey, hgen]
  | ok generated =>
    cases hval : env.Validate generated with
    | some err =>
      simp only [createPrivateKey, hgen, hval, reduceCtorEq, Except.ok.injEq, false_iff, not_and]
      rintro rfl
      simp [hval]
    | none =>
      simp only [createPrivateKey, hgen, hval, Except.ok.injEq]
      constructor
      · rintro rfl
        exact ⟨rfl, hval⟩
      · rintro ⟨rfl, -⟩
        rfl

/-! ## Formatting lemmas -/

theorem Sprint_str_err (s : String) (e : GoError) :
    Sprint [.str s, .err e] = s ++ e.Error := by
  simp [Sprint, doPrint, Operand.text, Operand.isString]

theorem Sprintln_str_str (s t : String) :
    Sprintln [.str s, .str t] = s ++ " " ++ t ++ "\n" := by
  simp [Sprintln, Operand.text, String.intercalate, String.intercalate.go]

theorem Sprintln_str_err (s : String) (e : GoError) :
    Sprintln [.str s, .err e] = s ++ " " ++ e.Error ++ "\n" := by
  simp [Sprintln, Operand.text, String.intercalate, String.intercalate.go]

/-! ## The orchestration -/

/-- C1: when registration succeeds with key id `k` and the store call fails,
deregister is called exactly once, its key id is `k`, and the run ends in
failure (exit status 1), whatever the deregister call answers. -/
theorem rollback_once_with_registered_id (env : Env) (flags : Flags)
    (input : ImportKeyPairInput) (output : ImportKeyPairOutput)
    (secretInput : CreateSecretInput) (err : GoError)
    (hreg : (input, Except.ok output) ∈ registerCalls (main env flags).trace)
    (hsto : (secretInput, Except.error err) ∈ storeCalls (main env flags).trace) :
    (∃ result, deregisterCalls (main env flags).trace =
        [({ DryRun := some flags.fDryrun, KeyPairId := some (ToString output.KeyPairId) },
          result)]) ∧
      (main env flags).outcome.exitStatus = 1 := by
  have h := main_shape env flags
  generalize main env flags = run at h hreg hsto
  cases h <;>
    simp [logFatal, registerCalls, storeCalls, deregisterCalls, Outcome.exitStatus,
      deregisterRequest] at hreg hsto ⊢
  all_goals
    obtain ⟨-, rfl⟩ := hreg
    rfl

/-- C1 at a concrete run, once with a deregister call that succeeds and once
with one that fails. -/
theorem rollback_once_with_registered_id_witness :
    ((∃ result, deregisterCalls
          (main (scriptedEnv (.ok ⟨some "key-0f3a"⟩) (.error ⟨"limit exceeded"⟩) (.ok ()))
            (sampleFlags false)).trace =
        [({ DryRun := some false, KeyPairId := some "key-0f3a" }, result)]) ∧
      (main (scriptedEnv (.ok ⟨some "key-0f3a"⟩) (.error ⟨"limit exceeded"⟩) (.ok ()))
        (sampleFlags false)).outcome.exitStatus = 1) ∧
    ((∃ result, deregisterCalls
          (main (scriptedEnv (.ok ⟨some "key-0f3a"⟩) (.error ⟨"limit exceeded"⟩)
            (.error ⟨"access denied"⟩)) (sampleFlags false)).trace =
        [({ DryRun := some false, KeyPairId := some "key-0f3a" }, result)]) ∧
      (main (scriptedEnv (.ok ⟨some "key-0f3a"⟩) (.error ⟨"limit exceeded"⟩)
        (.error ⟨"access denied"⟩)) (sampleFlags false)).outcome.exitStatus = 1) :=
  ⟨rollback_once_with_registered_id _ (sampleFlags false) _ ⟨some "key-0f3a"⟩ _
      ⟨"limit exceeded"⟩ (List.Mem.head _) (List.Mem.head _),
    rollback_once_with_registered_id _ (sampleFlags false) _ ⟨some "key-0f3a"⟩ _
      ⟨"limit exceeded"⟩ (List.Mem.head _) (List.Mem.head _)⟩

/-- C3: when the register call fails, the run ends with the fatal message of
the registry stage (`import keypair failed` and the registry error), and
neither the store call nor the deregister call is made. -/
theorem register_failure_stops_run (env : Env) (flags : Flags)
    (input : ImportKeyPairInput) (err : GoError)
    (hreg : (input, Except.error err) ∈ registerCalls (main env flags).trace) :
    (main env flags).outcome = Outcome.fatal ("import keypair failed" ++ err.Error) ∧
      (main env flags).outcome.exitStatus = 1 ∧
      storeCalls (main env flags).trace = [] ∧
      deregisterCalls (main env flags).trace = [] := by
  have h := main_shape env flags
  generalize main env flags = run at h hreg
  cases h <;>
    simp [logFatal, registerCalls, storeCalls, deregisterCalls, Outcome.exitStatus,
      Sprint_str_err] at hreg ⊢
  obtain ⟨-, rfl⟩ := hreg
  rfl

/-- C3 at a concrete run whose register call reports a name conflict. -/
theorem register_failure_stops_run_witness :
    (main (scriptedEnv (.error ⟨"InvalidKeyPair.Duplicate"⟩) (.ok ⟨some "arn"⟩) (.ok ()))
        (sampleFlags false)).outcome =
      Outcome.fatal ("import keypair failed" ++ "InvalidKeyPair.Duplicate") ∧
    (main (scriptedEnv (.error ⟨"InvalidKeyPair.Duplicate"⟩) (.ok ⟨some "arn"⟩) (.ok ()))
        (sampleFlags false)).outcome.exitStatus = 1 ∧
    storeCalls (main (scriptedEnv (.error ⟨"InvalidKeyPair.Duplicate"⟩) (.ok ⟨some "arn"⟩)
        (.ok ())) (sampleFlags false)).trace = [] ∧
    deregisterCalls (main (scriptedEnv (.error ⟨"InvalidKeyPair.Duplicate"⟩) (.ok ⟨some "arn"⟩)
        (.ok ())) (sampleFlags false)).trace = [] :=
  register_failure_stops_run _ (sampleFlags false) _ ⟨"InvalidKeyPair.Duplicate"⟩
    (List.Mem.head _)

/-- C2, as the code behaves: in a run with `dryRun = true` every register call
carries the dry-run flag, and unless a register call returns without error
neither the store call nor the deregister call is made.  When key generation,
both encodings and the loading of the configuration succeed, the register call
is made exactly once.  If it returns without error the store call is made
once; the deregister call is then not made when the store call succeeds, and
is made exactly once, with the dry-run flag set and the key id the register
call returned, when the store call fails. -/
theorem dry_run_only_marks_registry_calls (env : Env) (flags : Flags)
    (hdry : flags.fDryrun = true) :
    (∀ call ∈ registerCalls (main env flags).trace, call.1.DryRun = some true) ∧
    ((∀ call ∈ registerCalls (main env flags).trace, ∃ err, call.2 = Except.error err) →
      storeCalls (main env flags).trace = [] ∧ deregisterCalls (main env flags).trace = []) ∧
    (∀ privKey privKeyBytes pubKey cfg,
      createPrivateKey env flags.fBitSize = Except.ok privKey →
      encodeToPEM env privKey = some privKeyBytes →
      encodePublicKeyToBytes env privKey.PublicKey = Except.ok pubKey →
      env.LoadDefaultConfig = Except.ok cfg →
      registerCalls (main env flags).trace =
        [({ KeyName := some flags.fName, PublicKeyMaterial := pubKey, DryRun := some true },
          env.ImportKeyPair cfg
            { KeyName := some flags.fName, PublicKeyMaterial := pubKey, DryRun := some true })] ∧
      (∀ output, env.ImportKeyPair cfg
          { KeyName := some flags.fName, PublicKeyMaterial := pubKey, DryRun := some true } =
            Except.ok output →
        storeCalls (main env flags).trace =
          [({ Name := some flags.fName, Description := some "SSH KEY",
              SecretString := some (bytesString privKeyBytes) },
            env.CreateSecret cfg
              { Name := some flags.fName, Description := some "SSH KEY",
                SecretString := some (bytesString privKeyBytes) })] ∧
        (∀ secret, env.CreateSecret cfg
            { Name := some flags.fName, Description := some "SSH KEY",
              SecretString := some (bytesString privKeyBytes) } = Except.ok secret →
          deregisterCalls (main env flags).trace = []) ∧
        (∀ err, env.CreateSecret cfg
            { Name := some flags.fName, Description := some "SSH KEY",
              SecretString := some (bytesString privKeyBytes) } = Except.error err →
          deregisterCalls (main env flags).trace =
            [({ DryRun := some true, KeyPairId := some (ToString output.KeyPairId) },
              env.DeleteKeyPair cfg
                { DryRun := some true, KeyPairId := some (ToString output.KeyPairId) })]))) := by
  refine ⟨?_, ?_, ?_⟩
  · have h := main_shape env flags
    generalize main env flags = run at h
    cases h <;> simp [logFatal, registerCalls, registerRequest, hdry]
  · have h := main_shape env flags
    generalize main env flags = run at h
    cases h <;> simp [logFatal, registerCalls, storeCalls, deregisterCalls]
  · intro privKey privKeyBytes pubKey cfg hgen hpem hpub hcfg
    refine ⟨?_, ?_⟩
    · cases hreg : env.ImportKeyPair cfg
          { KeyName := some flags.fName, PublicKeyMaterial := pubKey, DryRun := some true } with
      | error err =>
        simp [main, hgen, hpem, hpub, hcfg, hdry, importKey, hreg, logFatal, registerCalls]
      | ok output =>
        cases hsto : env.CreateSecret cfg
            { Name := some flags.fName, Description := some "SSH KEY",
              SecretString := some (bytesString privKeyBytes) } with
        | ok secret =>
          simp [main, hgen, hpem, hpub, hcfg, hdry, importKey, saveInKMS, hreg, hsto, fmtPrintln,
            registerCalls]
        | error err =>
          cases hdel : env.DeleteKeyPair cfg
              { DryRun := some true, KeyPairId := some (ToString output.KeyPairId) } with
          | ok u =>
            simp [main, hgen, hpem, hpub, hcfg, hdry, importKey, saveInKMS, deleteImportKeyPair,
              hreg, hsto, hdel, fmtPrintln, logPrintln, logFatal, registerCalls]
          | error derr =>
            simp [main, hgen, hpem, hpub, hcfg, hdry, importKey, saveInKMS, deleteImportKeyPair,
              hreg, hsto, hdel, fmtPrintln, logPrintln, logFatal, registerCalls]
    · intro output hreg
      cases hsto : env.CreateSecret cfg
          { Name := some flags.fName, Description := some "SSH KEY",
            SecretString := some (bytesString privKeyBytes) } with
      | ok secret =>
        simp [main, hgen, hpem, hpub, hcfg, hdry, importKey, saveInKMS, hreg, hsto, fmtPrintln,
          storeCalls, deregisterCalls]
      | error err =>
        cases hdel : env.DeleteKeyPair cfg
            { DryRun := some true, KeyPairId := some (ToString output.KeyPairId) } with
        | ok u =>
          simp [main, hgen, hpem, hpub, hcfg, hdry, importKey, saveInKMS, deleteImportKeyPair,
            hreg, hsto, hdel, fmtPrintln, logPrintln, logFatal, storeCalls, deregisterCalls]
        | error derr =>
          simp [main, hgen, hpem, hpub, hcfg, hdry, importKey, saveInKMS, deleteImportKeyPair,
            hreg, hsto, hdel, fmtPrintln, logPrintln, logFatal, storeCalls, deregisterCalls]

/-- C2 at two concrete dry runs: one whose register call is refused, and one
whose register call returns a key id and whose store call fails. -/
theorem dry_run_only_marks_registry_calls_witness :
    (sampleFlags true).fDryrun = true ∧
    (registerCalls (main (scriptedEnv (.error ⟨"DryRunOperation"⟩) (.ok ⟨some "arn"⟩) (.ok ()))
        (sampleFlags true)).trace =
      [({ KeyName := some "svc-a", PublicKeyMaterial := MarshalAuthorizedKey sampleSshKey,
          DryRun := some true }, Except.error ⟨"DryRunOperation"⟩)] ∧
      storeCalls (main (scriptedEnv (.error ⟨"DryRunOperation"⟩) (.ok ⟨some "arn"⟩) (.ok ()))
        (sampleFlags true)).trace = [] ∧
      deregisterCalls (main (scriptedEnv (.error ⟨"DryRunOperation"⟩) (.ok ⟨some "arn"⟩) (.ok ()))
        (sampleFlags true)).trace = []) ∧
    deregisterCalls (main (scriptedEnv (.ok ⟨some "key-0f3a"⟩) (.error ⟨"limit exceeded"⟩)
        (.error ⟨"access denied"⟩)) (sampleFlags true)).trace =
      [({ DryRun := some true, KeyPairId := some "key-0f3a" },
        Except.error ⟨"access denied"⟩)] :=
  have refused := dry_run_only_marks_registry_calls
    (scriptedEnv (.error ⟨"DryRunOperation"⟩) (.ok ⟨some "arn"⟩) (.ok ())) (sampleFlags true) rfl
  have rolledBack := dry_run_only_marks_registry_calls
    (scriptedEnv (.ok ⟨some "key-0f3a"⟩) (.error ⟨"limit exceeded"⟩) (.error ⟨"access denied"⟩))
    (sampleFlags true) rfl
  ⟨rfl,
    ⟨(refused.2.2 sampleKey (pemEncodeToMemory ⟨"RSA PRIVATE KEY", [], sampleDER⟩)
        (MarshalAuthorizedKey sampleSshKey) ⟨"eu-north-1"⟩ rfl rfl rfl rfl).1,
      refused.2.1 (fun call hcall => by
        rw [List.mem_singleton.1 hcall]
        exact ⟨_, rfl⟩)⟩,
    (((rolledBack.2.2 sampleKey (pemEncodeToMemory ⟨"RSA PRIVATE KEY", [], sampleDER⟩)
        (MarshalAuthorizedKey sampleSshKey) ⟨"eu-north-1"⟩ rfl rfl rfl rfl).2
      ⟨some "key-0f3a"⟩ rfl).2.2 ⟨"limit exceeded"⟩ rfl)⟩

/-- C2 as stated fails: in this dry run the register call succeeds, and the
store call and then the deregister call are made. -/
theorem dry_run_reaches_store_and_rollback :
    (sampleFlags true).fDryrun = true ∧
    (registerCalls (main (scriptedEnv (.ok ⟨some "key-0f3a"⟩) (.error ⟨"limit exceeded"⟩)
        (.ok ())) (sampleFlags true)).trace).map (fun call => (call.1.DryRun, call.2)) =
      [(some true, Except.ok ⟨some "key-0f3a"⟩)] ∧
    (storeCalls (main (scriptedEnv (.ok ⟨some "key-0f3a"⟩) (.error ⟨"limit exceeded"⟩)
        (.ok ())) (sampleFlags true)).trace).map (fun call => (call.1.Name, call.2)) =
      [(some "svc-a", Except.error ⟨"limit exceeded"⟩)] ∧
    deregisterCalls (main (scriptedEnv (.ok ⟨some "key-0f3a"⟩) (.error ⟨"limit exceeded"⟩)
        (.ok ())) (sampleFlags true)).trace =
      [({ DryRun := some true, KeyPairId := some "key-0f3a" }, Except.ok ())] :=
  ⟨rfl, rfl, rfl, rfl⟩

/-- C4, as the code behaves: in a run with `dryRun = false` whose register and
store calls both succeed (so all earlier steps succeeded too), `main` returns
normally and prints exactly two lines, carrying the key id of the register
response and the ARN of the store response as `aws.ToString` reads them.  The
code does not check them: a printed identifier is non-empty exactly when the
response holds a non-empty one. -/
theorem success_reports_both_identifiers (env : Env) (flags : Flags)
    (input : ImportKeyPairInput) (output : ImportKeyPairOutput)
    (secretInput : CreateSecretInput) (secret : CreateSecretOutput)
    (_hdry : flags.fDryrun = false)
    (hreg : (input, Except.ok output) ∈ registerCalls (main env flags).trace)
    (hsto : (secretInput, Except.ok secret) ∈ storeCalls (main env flags).trace) :
    (main env flags).outcome = Outcome.returned ∧
    (main env flags).outcome.exitStatus = 0 ∧
    printed (main env flags).trace =
      ["Saved in EC2" ++ " " ++ ToString output.KeyPairId ++ "\n",
       "Saved in Secretsmanager" ++ " " ++ ToString secret.ARN ++ "\n"] ∧
    (ToString output.KeyPairId ≠ "" ↔ ∃ id, output.KeyPairId = some id ∧ id ≠ "") ∧
    (ToString secret.ARN ≠ "" ↔ ∃ arn, secret.ARN = some arn ∧ arn ≠ "") := by
  have hid : ∀ p : Option String, ToString p ≠ "" ↔ ∃ s, p = some s ∧ s ≠ "" := by
    intro p
    cases p <;> simp [ToString]
  refine ⟨?_, ?_, ?_, hid _, hid _⟩
  all_goals
    have h := main_shape env flags
    generalize main env flags = run at h hreg hsto
    cases h <;>
      simp [logFatal, registerCalls, storeCalls, printed, Outcome.exitStatus,
        Sprintln_str_str] at hreg hsto ⊢
  obtain ⟨-, rfl⟩ := hreg
  obtain ⟨-, rfl⟩ := hsto
  exact ⟨rfl, rfl⟩

/-- C4 at a concrete run in which both remote calls succeed. -/
theorem success_reports_both_identifiers_witness :
    (main (scriptedEnv (.ok ⟨some "key-0f3a"⟩) (.ok ⟨some "arn:aws:secretsmanager:svc-a"⟩)
      (.ok ())) (sampleFlags false)).outcome = Outcome.returned ∧
    printed (main (scriptedEnv (.ok ⟨some "key-0f3a"⟩)
      (.ok ⟨some "arn:aws:secretsmanager:svc-a"⟩) (.ok ())) (sampleFlags false)).trace =
      ["Saved in EC2 key-0f3a\n", "Saved in Secretsmanager arn:aws:secretsmanager:svc-a\n"] :=
  have h := success_reports_both_identifiers
    (scriptedEnv (.ok ⟨some "key-0f3a"⟩) (.ok ⟨some "arn:aws:secretsmanager:svc-a"⟩) (.ok ()))
    (sampleFlags false) _ ⟨some "key-0f3a"⟩ _ ⟨some "arn:aws:secretsmanager:svc-a"⟩ rfl
    (List.Mem.head _) (List.Mem.head _)
  ⟨h.1, h.2.2.1⟩

/-- C4 as stated fails: every step of this run with `dryRun = false` succeeds,
the register response carries no key id, and the run reports success with an
empty registry key id. -/
theorem success_with_empty_key_id :
    (sampleFlags false).fDryrun = false ∧
    createPrivateKey (scriptedEnv (.ok ⟨none⟩) (.ok ⟨some "arn:aws:secretsmanager:svc-a"⟩)
      (.ok ())) (sampleFlags false).fBitSize = .ok sampleKey ∧
    (registerCalls (main (scriptedEnv (.ok ⟨none⟩) (.ok ⟨some "arn:aws:secretsmanager:svc-a"⟩)
      (.ok ())) (sampleFlags false)).trace).map (fun call => call.2) = [Except.ok ⟨none⟩] ∧
    (storeCalls (main (scriptedEnv (.ok ⟨none⟩) (.ok ⟨some "arn:aws:secretsmanager:svc-a"⟩)
      (.ok ())) (sampleFlags false)).trace).map (fun call => call.2) =
      [Except.ok ⟨some "arn:aws:secretsmanager:svc-a"⟩] ∧
    (main (scriptedEnv (.ok ⟨none⟩) (.ok ⟨some "arn:aws:secretsmanager:svc-a"⟩) (.ok ()))
      (sampleFlags false)).outcome = Outcome.returned ∧
    printed (main (scriptedEnv (.ok ⟨none⟩) (.ok ⟨some "arn:aws:secretsmanager:svc-a"⟩)
      (.ok ())) (sampleFlags false)).trace =
      ["Saved in EC2 " ++ "" ++ "\n", "Saved in Secretsmanager arn:aws:secretsmanager:svc-a\n"] ∧
    ToString (none : Option String) = "" :=
  ⟨rfl, rfl, rfl, rfl, rfl, by decide, rfl⟩

/-- C5: when registration succeeds and the store call fails with `e`, the
fatal message is `secretsmanager keypair save failed` followed by `e`.  The end
of the run is the same for every behaviour of the deregister operation, and
the messages logged are: the rollback notice, then, only when deregister fails
with `e'`, a message of its own with `e'`, then the fatal message with `e`. -/
theorem store_error_is_the_terminal_failure (env : Env) (flags : Flags)
    (input : ImportKeyPairInput) (output : ImportKeyPairOutput)
    (secretInput : CreateSecretInput) (e : GoError)
    (hreg : (input, Except.ok output) ∈ registerCalls (main env flags).trace)
    (hsto : (secretInput, Except.error e) ∈ storeCalls (main env flags).trace) :
    (main env flags).outcome =
      Outcome.fatal ("secretsmanager keypair save failed" ++ e.Error) ∧
    (∀ deregister, (main { env with DeleteKeyPair := deregister } flags).outcome =
      (main env flags).outcome) ∧
    ∃ request result, deregisterCalls (main env flags).trace = [(request, result)] ∧
      logged (main env flags).trace =
        "delete keypair as we have errors\n" ::
          ((match result with
            | Except.ok _ => []
            | Except.error e' => ["failed deletion of keypair" ++ " " ++ e'.Error ++ "\n"]) ++
          ["secretsmanager keypair save failed" ++ e.Error]) := by
  have hmain : ∀ deregister, (main { env with DeleteKeyPair := deregister } flags).outcome =
      (main env flags).outcome := by
    intro deregister
    simp only [main, createPrivateKey, encodeToPEM, encodePublicKeyToBytes, importKey, saveInKMS,
      logFatal]
    repeat' split
    all_goals rfl
  refine ⟨?_, hmain, ?_⟩
  all_goals
    have h := main_shape env flags
    generalize main env flags = run at h hreg hsto
    cases h <;>
      simp [logFatal, registerCalls, storeCalls, deregisterCalls, logged, Sprint_str_err,
        Sprintln_str_err, Sprintln, Operand.text, String.intercalate,
        String.intercalate.go] at hreg hsto ⊢
  all_goals
    obtain ⟨-, rfl⟩ := hsto
    first
      | rfl
      | (refine ⟨_, _, ⟨rfl, rfl⟩, ?_⟩; rfl)

/-- C5 at a concrete run whose deregister call fails too. -/
theorem store_error_is_the_terminal_failure_witness :
    (main (scriptedEnv (.ok ⟨some "key-0f3a"⟩) (.error ⟨"limit exceeded"⟩)
        (.error ⟨"access denied"⟩)) (sampleFlags false)).outcome =
      Outcome.fatal ("secretsmanager keypair save failed" ++ "limit exceeded") ∧
    logged (main (scriptedEnv (.ok ⟨some "key-0f3a"⟩) (.error ⟨"limit exceeded"⟩)
        (.error ⟨"access denied"⟩)) (sampleFlags false)).trace =
      ["delete keypair as we have errors\n", "failed deletion of keypair access denied\n",
       "secretsmanager keypair save failedlimit exceeded"] :=
  ⟨(store_error_is_the_terminal_failure
      (scriptedEnv (.ok ⟨some "key-0f3a"⟩) (.error ⟨"limit exceeded"⟩) (.error ⟨"access denied"⟩))
      (sampleFlags false) _ ⟨some "key-0f3a"⟩ _ ⟨"limit exceeded"⟩
      (List.Mem.head _) (List.Mem.head _)).1, by decide⟩

/-- C6, as the code behaves: when registration succeeds with key id `k`, the
store call fails with `e` and the deregister call fails with `e'`, the events
of the run are, in this order: the register call, the line `Saved in EC2 k` on
standard output, the store call, the log message `delete keypair as we have
errors`, the deregister call for `k`, the log message `failed deletion of
keypair` followed by `e'`, and the fatal log message `secretsmanager keypair
save failed` followed by `e`.  So the run writes `k` on standard output, after
the register call and before the store call, and each logged message is a
fixed text, followed for the last two by an error text. -/
theorem orphaned_key_id_only_on_stdout (env : Env) (flags : Flags)
    (input : ImportKeyPairInput) (output : ImportKeyPairOutput)
    (secretInput : CreateSecretInput) (e : GoError)
    (request : DeleteKeyPairInput) (e' : GoError)
    (hreg : (input, Except.ok output) ∈ registerCalls (main env flags).trace)
    (hsto : (secretInput, Except.error e) ∈ storeCalls (main env flags).trace)
    (hdel : (request, Except.error e') ∈ deregisterCalls (main env flags).trace) :
    (main env flags).trace =
      [Event.ImportKeyPair input (Except.ok output),
       Event.stdout ("Saved in EC2" ++ " " ++ ToString output.KeyPairId ++ "\n"),
       Event.CreateSecret secretInput (Except.error e),
       Event.log "delete keypair as we have errors\n",
       Event.DeleteKeyPair request (Except.error e'),
       Event.log ("failed deletion of keypair" ++ " " ++ e'.Error ++ "\n"),
       Event.log ("secretsmanager keypair save failed" ++ e.Error)] ∧
    request.KeyPairId = some (ToString output.KeyPairId) ∧
    occursIn (ToString output.KeyPairId)
      ("Saved in EC2" ++ " " ++ ToString output.KeyPairId ++ "\n") := by
  have hocc : occursIn (ToString output.KeyPairId)
      ("Saved in EC2" ++ " " ++ ToString output.KeyPairId ++ "\n") := by
    refine ⟨("Saved in EC2" ++ " ").data, ("\n" : String).data, ?_⟩
    simp [String.data_append]
  refine ⟨?_, ?_, hocc⟩
  all_goals
    have h := main_shape env flags
    generalize main env flags = run at h hreg hsto hdel
    cases h <;>
      simp [logFatal, registerCalls, storeCalls, deregisterCalls, Sprint_str_err,
        Sprintln_str_err, Sprintln_str_str, Sprintln, Operand.text, String.intercalate,
        String.intercalate.go] at hreg hsto hdel ⊢
  all_goals
    obtain ⟨rfl, rfl⟩ := hreg
    obtain ⟨rfl, rfl⟩ := hsto
    obtain ⟨rfl, rfl⟩ := hdel
    first
      | rfl
      | exact ⟨rfl, rfl⟩
      | simp [deregisterRequest]

/-- C6 at a concrete run: registration gives `key-0f3a`, store and deregister fail. -/
theorem orphaned_key_id_only_on_stdout_witness :
    (main (scriptedEnv (.ok ⟨some "key-0f3a"⟩) (.error ⟨"limit exceeded"⟩)
        (.error ⟨"access denied"⟩)) (sampleFlags false)).trace =
      [Event.ImportKeyPair
         (registerRequest (sampleFlags false) (MarshalAuthorizedKey sampleSshKey))
         (Except.ok ⟨some "key-0f3a"⟩),
       Event.stdout ("Saved in EC2" ++ " " ++ "key-0f3a" ++ "\n"),
       Event.CreateSecret
         (storeRequest (sampleFlags false) (pemEncodeToMemory ⟨"RSA PRIVATE KEY", [], sampleDER⟩))
         (Except.error ⟨"limit exceeded"⟩),
       Event.log "delete keypair as we have errors\n",
       Event.DeleteKeyPair (deregisterRequest (sampleFlags false) "key-0f3a")
         (Except.error ⟨"access denied"⟩),
       Event.log ("failed deletion of keypair" ++ " " ++ "access denied" ++ "\n"),
       Event.log ("secretsmanager keypair save failed" ++ "limit exceeded")] :=
  (orphaned_key_id_only_on_stdout
    (scriptedEnv (.ok ⟨some "key-0f3a"⟩) (.error ⟨"limit exceeded"⟩) (.error ⟨"access denied"⟩))
    (sampleFlags false)
    (registerRequest (sampleFlags false) (MarshalAuthorizedKey sampleSshKey)) ⟨some "key-0f3a"⟩
    (storeRequest (sampleFlags false) (pemEncodeToMemory ⟨"RSA PRIVATE KEY", [], sampleDER⟩))
    ⟨"limit exceeded"⟩ (deregisterRequest (sampleFlags false) "key-0f3a") ⟨"access denied"⟩
    (List.Mem.head _) (List.Mem.head _) (List.Mem.head _)).1

/-- C6 as stated fails: registration gives `key-0f3a`, the store call and the
deregister call fail, and none of the messages logged for the failure
contains `key-0f3a`. -/
theorem orphaned_key_id_not_in_diagnostics :
    (registerCalls (main (scriptedEnv (.ok ⟨some "key-0f3a"⟩) (.error ⟨"limit exceeded"⟩)
        (.error ⟨"access denied"⟩)) (sampleFlags false)).trace).map (fun call => call.2) =
      [Except.ok ⟨some "key-0f3a"⟩] ∧
    (storeCalls (main (scriptedEnv (.ok ⟨some "key-0f3a"⟩) (.error ⟨"limit exceeded"⟩)
        (.error ⟨"access denied"⟩)) (sampleFlags false)).trace).map (fun call => call.2) =
      [Except.error ⟨"limit exceeded"⟩] ∧
    deregisterCalls (main (scriptedEnv (.ok ⟨some "key-0f3a"⟩) (.error ⟨"limit exceeded"⟩)
        (.error ⟨"access denied"⟩)) (sampleFlags false)).trace =
      [({ DryRun := some false, KeyPairId := some "key-0f3a" }, Except.error ⟨"access denied"⟩)] ∧
    logged (main (scriptedEnv (.ok ⟨some "key-0f3a"⟩) (.error ⟨"limit exceeded"⟩)
        (.error ⟨"access denied"⟩)) (sampleFlags false)).trace =
      ["delete keypair as we have errors\n", "failed deletion of keypair access denied\n",
       "secretsmanager keypair save failedlimit exceeded"] ∧
    ∀ message ∈ logged (main (scriptedEnv (.ok ⟨some "key-0f3a"⟩) (.error ⟨"limit exceeded"⟩)
        (.error ⟨"access denied"⟩)) (sampleFlags false)).trace,
      ¬ occursIn "key-0f3a" message :=
  ⟨rfl, rfl, rfl, by decide, by decide⟩

/-- C7: when `createPrivateKey` fails, or it succeeds and
`encodePublicKeyToBytes` fails on the public half of its key, the run ends in
failure (it does not return; its exit status is not 0) and makes no remote
call: no register, store or deregister call is in its trace. -/
theorem local_failure_makes_no_remote_call (env : Env) (flags : Flags)
    (hfail : (∃ err, createPrivateKey env flags.fBitSize = Except.error err) ∨
      (∃ privKey err, createPrivateKey env flags.fBitSize = Except.ok privKey ∧
        encodePublicKeyToBytes env privKey.PublicKey = Except.error err)) :
    (main env flags).outcome ≠ Outcome.returned ∧
    (main env flags).outcome.exitStatus ≠ 0 ∧
    registerCalls (main env flags).trace = [] ∧
    storeCalls (main env flags).trace = [] ∧
    deregisterCalls (main env flags).trace = [] := by
  have hlocal : ∀ privKey privKeyBytes pubKey cfg,
      ¬ Prepared env flags privKey privKeyBytes pubKey cfg := by
    intro privKey privKeyBytes pubKey cfg hprep
    rcases hfail with ⟨err, hgen⟩ | ⟨privKey', err, hgen, hpub⟩
    · rw [hprep.generated] at hgen
      cases hgen
    · rw [hprep.generated] at hgen
      cases hgen
      rw [hprep.publicEncoded] at hpub
      cases hpub
  have h := main_shape env flags
  generalize main env flags = run at h
  cases h with
  | generationFailed err hgen =>
    simp [logFatal, registerCalls, storeCalls, deregisterCalls, Outcome.exitStatus]
  | marshalPanicked privKey hgen hpem =>
    simp [registerCalls, storeCalls, deregisterCalls, Outcome.exitStatus]
  | encodingFailed privKey privKeyBytes err hgen hpem hpub =>
    simp [logFatal, registerCalls, storeCalls, deregisterCalls, Outcome.exitStatus]
  | configFailed privKey privKeyBytes pubKey err hgen hpem hpub hcfg =>
    rcases hfail with ⟨err', hgen'⟩ | ⟨privKey', err', hgen', hpub'⟩
    · rw [hgen] at hgen'
      cases hgen'
    · rw [hgen] at hgen'
      cases hgen'
      rw [hpub] at hpub'
      cases hpub'
  | registrationFailed privKey privKeyBytes pubKey cfg err hprep hreg =>
    exact absurd hprep (hlocal _ _ _ _)
  | stored privKey privKeyBytes pubKey cfg output secret hprep hreg hsto =>
    exact absurd hprep (hlocal _ _ _ _)
  | rolledBack privKey privKeyBytes pubKey cfg output err hprep hreg hsto hdel =>
    exact absurd hprep (hlocal _ _ _ _)
  | orphaned privKey privKeyBytes pubKey cfg output err derr hprep hreg hsto hdel =>
    exact absurd hprep (hlocal _ _ _ _)

/-- C7 at a concrete run whose key generation fails. -/
theorem local_failure_makes_no_remote_call_witness :
    (main noEntropyEnv (sampleFlags false)).outcome ≠ Outcome.returned ∧
    (main noEntropyEnv (sampleFlags false)).outcome.exitStatus ≠ 0 ∧
    registerCalls (main noEntropyEnv (sampleFlags false)).trace = [] ∧
    storeCalls (main noEntropyEnv (sampleFlags false)).trace = [] ∧
    deregisterCalls (main noEntropyEnv (sampleFlags false)).trace = [] :=
  local_failure_makes_no_remote_call noEntropyEnv (sampleFlags false)
    (Or.inl ⟨⟨"entropy source unavailable"⟩, rfl⟩)

/-- C9: `createPrivateKey` fails with the generation error when generation
fails, fails with the validation error when the generated key does not
validate, and returns the generated key otherwise; so a key it returns is the
generated key and has passed `Validate`. -/
theorem createPrivateKey_returns_validated_key (env : Env) (bitsize : Int) :
    (∀ err, env.GenerateKey bitsize = Except.error err →
      createPrivateKey env bitsize = Except.error err) ∧
    (∀ key err, env.GenerateKey bitsize = Except.ok key → env.Validate key = some err →
      createPrivateKey env bitsize = Except.error err) ∧
    (∀ key, env.GenerateKey bitsize = Except.ok key → env.Validate key = none →
      createPrivateKey env bitsize = Except.ok key) ∧
    (∀ key, createPrivateKey env bitsize = Except.ok key →
      env.GenerateKey bitsize = Except.ok key ∧ env.Validate key = none) := by
  refine ⟨?_, ?_, ?_, ?_⟩
  · intro err hgen
    simp [createPrivateKey, hgen]
  · intro key err hgen hval
    simp [createPrivateKey, hgen, hval]
  · intro key hgen hval
    simp [createPrivateKey, hgen, hval]
  · intro key hkey
    unfold createPrivateKey at hkey
    cases hgen : env.GenerateKey bitsize with
    | error err => simp [hgen] at hkey
    | ok generated =>
      cases hval : env.Validate generated with
      | some err => simp [hgen, hval] at hkey
      | none =>
        simp [hgen, hval] at hkey
        subst hkey
        exact ⟨rfl, hval⟩

/-- C9 at concrete collaborators: a generated key that validates is returned,
a generation error is handed on. -/
theorem createPrivateKey_returns_validated_key_witness :
    createPrivateKey (scriptedEnv (.ok ⟨none⟩) (.ok ⟨none⟩) (.ok ())) 1024 = Except.ok sampleKey ∧
    createPrivateKey noEntropyEnv 1024 = Except.error ⟨"entropy source unavailable"⟩ :=
  ⟨(createPrivateKey_returns_validated_key (scriptedEnv (.ok ⟨none⟩) (.ok ⟨none⟩) (.ok ())) 1024).2.2.1
      sampleKey rfl rfl,
    (createPrivateKey_returns_validated_key noEntropyEnv 1024).1 _ rfl⟩

/-- C10: in a run that makes the store call there is one generated private
key behind both remote records: the register call (made exactly once) carries
the authorized-key encoding of that key's public half, the store call carries
the PEM encoding of that same key, and both carry the name given on the
command line. -/
theorem both_records_from_one_key (env : Env) (flags : Flags)
    (secretInput : CreateSecretInput) (result : Except GoError CreateSecretOutput)
    (hsto : (secretInput, result) ∈ storeCalls (main env flags).trace) :
    ∃ privKey sshKey pem input output,
      env.GenerateKey flags.fBitSize = Except.ok privKey ∧
      env.NewPublicKey privKey.PublicKey = Except.ok sshKey ∧
      encodeToPEM env privKey = some pem ∧
      registerCalls (main env flags).trace = [(input, Except.ok output)] ∧
      storeCalls (main env flags).trace = [(secretInput, result)] ∧
      input.PublicKeyMaterial = MarshalAuthorizedKey sshKey ∧
      secretInput.SecretString = some (bytesString pem) ∧
      input.KeyName = some flags.fName ∧
      secretInput.Name = some flags.fName := by
  have hkey : ∀ privKey privKeyBytes pubKey cfg,
      Prepared env flags privKey privKeyBytes pubKey cfg →
      ∃ sshKey, env.GenerateKey flags.fBitSize = Except.ok privKey ∧
        env.NewPublicKey privKey.PublicKey = Except.ok sshKey ∧
        pubKey = MarshalAuthorizedKey sshKey := by
    intro privKey privKeyBytes pubKey cfg hprep
    have hgen := (createPrivateKey_generated env flags.fBitSize privKey).1 hprep.generated
    have hpub := hprep.publicEncoded
    unfold encodePublicKeyToBytes at hpub
    cases hssh : env.NewPublicKey privKey.PublicKey with
    | error err => simp [hssh] at hpub
    | ok sshKey =>
      simp [hssh] at hpub
      exact ⟨sshKey, hgen.1, rfl, hpub.symm⟩
  have h := main_shape env flags
  generalize main env flags = run at h hsto
  cases h with
  | generationFailed err hgen => simp [logFatal, storeCalls] at hsto
  | marshalPanicked privKey hgen hpem => simp [storeCalls] at hsto
  | encodingFailed privKey privKeyBytes err hgen hpem hpub => simp [logFatal, storeCalls] at hsto
  | configFailed privKey privKeyBytes pubKey err hgen hpem hpub hcfg =>
    simp [logFatal, storeCalls] at hsto
  | registrationFailed privKey privKeyBytes pubKey cfg err hprep hreg =>
    simp [logFatal, storeCalls] at hsto
  | stored privKey privKeyBytes pubKey cfg output secret hprep hreg hsto' =>
    obtain ⟨sshKey, hgen, hssh, hpub⟩ := hkey _ _ _ _ hprep
    simp [storeCalls] at hsto
    obtain ⟨rfl, rfl⟩ := hsto
    exact ⟨privKey, sshKey, privKeyBytes, registerRequest flags pubKey, output, hgen, hssh,
      hprep.encoded, rfl, rfl, hpub, rfl, rfl, rfl⟩
  | rolledBack privKey privKeyBytes pubKey cfg output err hprep hreg hsto' hdel =>
    obtain ⟨sshKey, hgen, hssh, hpub⟩ := hkey _ _ _ _ hprep
    simp [logFatal, storeCalls] at hsto
    obtain ⟨rfl, rfl⟩ := hsto
    exact ⟨privKey, sshKey, privKeyBytes, registerRequest flags pubKey, output, hgen, hssh,
      hprep.encoded, rfl, rfl, hpub, rfl, rfl, rfl⟩
  | orphaned privKey privKeyBytes pubKey cfg output err derr hprep hreg hsto' hdel =>
    obtain ⟨sshKey, hgen, hssh, hpub⟩ := hkey _ _ _ _ hprep
    simp [logFatal, storeCalls] at hsto
    obtain ⟨rfl, rfl⟩ := hsto
    exact ⟨privKey, sshKey, privKeyBytes, registerRequest flags pubKey, output, hgen, hssh,
      hprep.encoded, rfl, rfl, hpub, rfl, rfl, rfl⟩

/-- C10 at a concrete run in which both remote calls succeed. -/
theorem both_records_from_one_key_witness :
    ∃ privKey sshKey pem input output,
      (scriptedEnv (.ok ⟨some "key-0f3a"⟩) (.ok ⟨some "arn"⟩) (.ok ())).GenerateKey
        (sampleFlags false).fBitSize = Except.ok privKey ∧
      (scriptedEnv (.ok ⟨some "key-0f3a"⟩) (.ok ⟨some "arn"⟩) (.ok ())).NewPublicKey
        privKey.PublicKey = Except.ok sshKey ∧
      encodeToPEM (scriptedEnv (.ok ⟨some "key-0f3a"⟩) (.ok ⟨some "arn"⟩) (.ok ())) privKey =
        some pem ∧
      registerCalls (main (scriptedEnv (.ok ⟨some "key-0f3a"⟩) (.ok ⟨some "arn"⟩) (.ok ()))
        (sampleFlags false)).trace = [(input, Except.ok output)] ∧
      storeCalls (main (scriptedEnv (.ok ⟨some "key-0f3a"⟩) (.ok ⟨some "arn"⟩) (.ok ()))
        (sampleFlags false)).trace =
        [(storeRequest (sampleFlags false) (pemEncodeToMemory ⟨"RSA PRIVATE KEY", [], sampleDER⟩),
          Except.ok ⟨some "arn"⟩)] ∧
      input.PublicKeyMaterial = MarshalAuthorizedKey sshKey ∧
      (storeRequest (sampleFlags false) (pemEncodeToMemory ⟨"RSA PRIVATE KEY", [], sampleDER⟩)).SecretString =
        some (bytesString pem) ∧
      input.KeyName = some (sampleFlags false).fName ∧
      (storeRequest (sampleFlags false) (pemEncodeToMemory ⟨"RSA PRIVATE KEY", [], sampleDER⟩)).Name =
        some (sampleFlags false).fName :=
  both_records_from_one_key
    (scriptedEnv (.ok ⟨some "key-0f3a"⟩) (.ok ⟨some "arn"⟩) (.ok ())) (sampleFlags false)
    (storeRequest (sampleFlags false) (pemEncodeToMemory ⟨"RSA PRIVATE KEY", [], sampleDER⟩))
    (Except.ok ⟨some "arn"⟩) (List.Mem.head _)

end Kepair
